import Mathlib

/-!
Verification development for the fake Ollama proxy server
(`fake_ollama_server.py`).  The Python source is shallowly embedded:

* JSON values are modelled by the inductive `Json` (numbers restricted to
  integers, which covers every field the server reads or writes);
* Python dictionary/list primitives that can raise (`d.get`, `xs[0]`,
  truthiness) are modelled by `pyGet`, `pyIndex0`, `pyTruthy`, returning
  `Except` where Python raises;
* `parse_response_line` is embedded in two layers: `parse_payload` works on
  the decoded JSON payload, `parse_response_line` on the raw byte line,
  with an executable strict UTF-8 decoder (`utf8Decode`) and an executable
  JSON reader (`jsonParse`) standing in for `bytes.decode("utf-8")` and
  `json.loads`; the `try/except` wrapper that turns any exception into
  `None` becomes the catch in `parse_response_line`;
* `validate_message_sequence` is embedded as a state-passing function that
  returns the (possibly mutated) message list together with the outcome,
  an uncaught `IndexError` being an explicit outcome;
* the `/api/chat` handler `chat` is embedded up to the point where it
  dispatches to the upstream call, with the uncaught `KeyError` of
  `MODEL_ENDPOINTS[model]` as an explicit outcome.
-/

/-- JSON values as decoded by `json.loads`, with numbers restricted to
integers (the only numbers the server touches are token counts). -/
inductive Json where
  | null : Json
  | bool (b : Bool) : Json
  | num (n : Int) : Json
  | str (s : String) : Json
  | arr (elems : List Json) : Json
  | obj (fields : List (String × Json)) : Json

/-- Python equality test of a decoded JSON value against a string literal
(`x == "stop"`): true exactly when the value is that string. -/
def jeqStr (j : Json) (s : String) : Bool :=
  match j with
  | .str t => t = s
  | _ => false

/-- Association-list lookup used for JSON objects (the reader below keeps
keys unique, later duplicates overwriting earlier ones, as `json.loads`
does). -/
def jlookup : List (String × Json) → String → Option Json
  | [], _ => none
  | (k, v) :: rest, key => if k = key then some v else jlookup rest key

/-- Field lookup on a JSON value; `none` when the value is not an object
or lacks the key. -/
def Json.getField : Json → String → Option Json
  | .obj fields, key => jlookup fields key
  | _, _ => none

/-- Whether the value is a JSON object (`isinstance(x, dict)`). -/
def Json.isObj : Json → Bool
  | .obj _ => true
  | _ => false

/-- Python truthiness of a decoded JSON value: `None`, `False`, `0`, `""`,
`[]` and the empty dict are falsy, everything else truthy. -/
def pyTruthy : Json → Bool
  | .null => false
  | .bool b => b
  | .num n => n != 0
  | .str s => s != ""
  | .arr elems => !elems.isEmpty
  | .obj fields => !fields.isEmpty

/-- Python `d.get(key, default)`: returns the binding or the default on a
dict, raises `AttributeError` on any non-dict value. -/
def pyGet (j : Json) (key : String) (dflt : Json) : Except String Json :=
  match j with
  | .obj fields =>
      match jlookup fields key with
      | some v => .ok v
      | none => .ok dflt
  | _ => .error "AttributeError"

/-- Python `xs[0]`: first element of a list, first character of a string
(as a one-character string); raises `IndexError` when empty and
`TypeError`/`KeyError` on non-sequences. -/
def pyIndex0 : Json → Except String Json
  | .arr (x :: _) => .ok x
  | .arr [] => .error "IndexError"
  | .str s => if s = "" then .error "IndexError" else .ok (.str (s.take 1))
  | _ => .error "TypeError"

/-- Whether a byte is a UTF-8 continuation byte (`0x80..0xBF`). -/
def isCont (b : Nat) : Bool :=
  decide (0x80 ≤ b ∧ b ≤ 0xBF)

/-- Strict UTF-8 decoding of a byte sequence into Unicode code points,
modelling `bytes.decode("utf-8")`: rejects overlong encodings, surrogate
code points, values above `0x10FFFF` and truncated sequences, returning
`none` where Python raises `UnicodeDecodeError`. -/
def utf8Cps : List Nat → Option (List Nat)
  | [] => some []
  | b :: rest =>
    if b ≤ 0x7F then
      (utf8Cps rest).map (fun cps => b :: cps)
    else if 0xC2 ≤ b ∧ b ≤ 0xDF then
      match rest with
      | b1 :: rest1 =>
        if isCont b1 then
          (utf8Cps rest1).map (fun cps => ((b - 0xC0) * 0x40 + (b1 - 0x80)) :: cps)
        else none
      | [] => none
    else if 0xE0 ≤ b ∧ b ≤ 0xEF then
      match rest with
      | b1 :: b2 :: rest2 =>
        if (if b = 0xE0 then 0xA0 else 0x80) ≤ b1 ∧
            b1 ≤ (if b = 0xED then 0x9F else 0xBF) ∧ isCont b2 then
          (utf8Cps rest2).map
            (fun cps => ((b - 0xE0) * 0x1000 + (b1 - 0x80) * 0x40 + (b2 - 0x80)) :: cps)
        else none
      | _ => none
    else if 0xF0 ≤ b ∧ b ≤ 0xF4 then
      match rest with
      | b1 :: b2 :: b3 :: rest3 =>
        if (if b = 0xF0 then 0x90 else 0x80) ≤ b1 ∧
            b1 ≤ (if b = 0xF4 then 0x8F else 0xBF) ∧ isCont b2 ∧ isCont b3 then
          (utf8Cps rest3).map
            (fun cps =>
              ((b - 0xF0) * 0x40000 + (b1 - 0x80) * 0x1000 +
                (b2 - 0x80) * 0x40 + (b3 - 0x80)) :: cps)
        else none
      | _ => none
    else none

/-- Strict UTF-8 decoding into a string (`bytes.decode("utf-8")`);
`none` models an uncaught `UnicodeDecodeError`. -/
def utf8Decode (bytes : List Nat) : Option String :=
  (utf8Cps bytes).map (fun cps => String.mk (cps.map Char.ofNat))

/-- Byte representation of an ASCII string literal (`b"..."`). -/
def asciiBytes (s : String) : List Nat :=
  s.data.map Char.toNat

/-- JSON whitespace (space, tab, newline, carriage return). -/
def isJsonWs (c : Char) : Bool :=
  c = ' ' || c = '\t' || c = '\n' || c = '\r'

/-- Drop leading JSON whitespace. -/
def skipWs : List Char → List Char
  | [] => []
  | c :: rest => if isJsonWs c then skipWs rest else c :: rest

/-- Value of one hexadecimal digit, `none` for other characters. -/
def hexDigit (c : Char) : Option Nat :=
  if '0' ≤ c ∧ c ≤ '9' then some (c.toNat - '0'.toNat)
  else if 'a' ≤ c ∧ c ≤ 'f' then some (c.toNat - 'a'.toNat + 10)
  else if 'A' ≤ c ∧ c ≤ 'F' then some (c.toNat - 'A'.toNat + 10)
  else none

/-- Read the remainder of a JSON string literal (the opening quote already
consumed), handling the escape sequences `json.loads` accepts; raw control
characters and bad escapes fail. -/
def jsonStringRest : List Char → Option (String × List Char)
  | [] => none
  | '"' :: rest => some ("", rest)
  | '\\' :: 'u' :: a :: b :: c :: d :: rest => do
    let ha ← hexDigit a
    let hb ← hexDigit b
    let hc ← hexDigit c
    let hd ← hexDigit d
    let (s, r) ← jsonStringRest rest
    let n := ((ha * 16 + hb) * 16 + hc) * 16 + hd
    pure (String.mk [Char.ofNat n] ++ s, r)
  | '\\' :: e :: rest => do
    let c ←
      if e = '"' then some '"'
      else if e = '\\' then some '\\'
      else if e = '/' then some '/'
      else if e = 'b' then some (Char.ofNat 8)
      else if e = 'f' then some (Char.ofNat 12)
      else if e = 'n' then some '\n'
      else if e = 'r' then some '\r'
      else if e = 't' then some '\t'
      else none
    let (s, r) ← jsonStringRest rest
    pure (String.mk [c] ++ s, r)
  | c :: rest =>
    if c.toNat < 0x20 then none
    else (jsonStringRest rest).map (fun p => (String.mk [c] ++ p.1, p.2))

/-- Read the digits of a natural number, returning the value, the count of
digits read and the rest. -/
def jsonDigits : List Char → Nat → Nat → Nat × Nat × List Char
  | c :: rest, acc, cnt =>
    if c.isDigit then jsonDigits rest (acc * 10 + (c.toNat - '0'.toNat)) (cnt + 1)
    else (acc, cnt, c :: rest)
  | [], acc, cnt => (acc, cnt, [])

/-- Read a JSON integer literal (an optional minus sign and digits without
a superfluous leading zero).  Numbers with a fraction or exponent are not
modelled (the server only ever reads integer token counts); on them the
reader fails where `json.loads` would build a float. -/
def jsonNumber (cs : List Char) : Option (Int × List Char) :=
  let (neg, cs2) :=
    match cs with
    | '-' :: rest => (true, rest)
    | _ => (false, cs)
  match cs2 with
  | c :: _ =>
    if c.isDigit then
      let (n, cnt, rest) := jsonDigits cs2 0 0
      if 1 < cnt ∧ c = '0' then none
      else some (if neg then -(n : Int) else (n : Int), rest)
    else none
  | [] => none

/-- Insert a key into an object under construction, a later duplicate
overwriting the earlier value in place, as Python dicts do. -/
def objInsert : List (String × Json) → String → Json → List (String × Json)
  | [], k, v => [(k, v)]
  | (k2, v2) :: rest, k, v =>
    if k2 = k then (k2, v) :: rest else (k2, v2) :: objInsert rest k v

mutual

/-- Fuel-indexed recursive-descent reader for one JSON value, modelling
`json.loads` on the fragment of JSON the server exchanges. -/
def jsonValue : Nat → List Char → Option (Json × List Char)
  | 0, _ => none
  | fuel + 1, cs =>
    match skipWs cs with
    | 'n' :: 'u' :: 'l' :: 'l' :: rest => some (.null, rest)
    | 't' :: 'r' :: 'u' :: 'e' :: rest => some (.bool true, rest)
    | 'f' :: 'a' :: 'l' :: 's' :: 'e' :: rest => some (.bool false, rest)
    | '"' :: rest => (jsonStringRest rest).map (fun p => (.str p.1, p.2))
    | '[' :: rest =>
      (match skipWs rest with
        | ']' :: rest2 => some (.arr [], rest2)
        | cs2 => (jsonArrayItems fuel cs2).map (fun p => (.arr p.1, p.2)))
    | '{' :: rest =>
      (match skipWs rest with
        | '}' :: rest2 => some (.obj [], rest2)
        | cs2 => (jsonObjectItems fuel cs2 []).map (fun p => (.obj p.1, p.2)))
    | cs2 => (jsonNumber cs2).map (fun p => (.num p.1, p.2))

/-- Items of a JSON array after the opening bracket (non-empty case). -/
def jsonArrayItems : Nat → List Char → Option (List Json × List Char)
  | 0, _ => none
  | fuel + 1, cs => do
    let (v, rest) ← jsonValue fuel cs
    match skipWs rest with
    | ',' :: rest2 => (jsonArrayItems fuel rest2).map (fun p => (v :: p.1, p.2))
    | ']' :: rest2 => some ([v], rest2)
    | _ => none

/-- Members of a JSON object after the opening brace (non-empty case),
folded left to right into the accumulator so that a later duplicate key
overwrites the earlier value in place, as Python dicts do. -/
def jsonObjectItems : Nat → List Char → List (String × Json) →
    Option (List (String × Json) × List Char)
  | 0, _, _ => none
  | fuel + 1, cs, acc => do
    match skipWs cs with
    | '"' :: rest => do
      let (k, rest2) ← jsonStringRest rest
      match skipWs rest2 with
      | ':' :: rest3 => do
        let (v, rest4) ← jsonValue fuel rest3
        match skipWs rest4 with
        | ',' :: rest5 => jsonObjectItems fuel rest5 (objInsert acc k v)
        | '}' :: rest5 => some (objInsert acc k v, rest5)
        | _ => none
      | _ => none
    | _ => none

end

/-- Parse a whole string as one JSON document (`json.loads`): one value
with only whitespace around it; `none` models `json.JSONDecodeError`. -/
def jsonParse (s : String) : Option Json :=
  match jsonValue (2 * s.length + 8) s.data with
  | some (v, rest) => if skipWs rest = [] then some v else none
  | none => none

/-- Constant `MODEL_CHAT = "deepseek-chat"`. -/
def MODEL_CHAT : String := "deepseek-chat"

/-- Constant `MODEL_REASONER = "deepseek-reasoner"`. -/
def MODEL_REASONER : String := "deepseek-reasoner"

/-- Constant `MODEL_ENDPOINTS`: the static model-name-to-upstream-URL mapping. -/
def MODEL_ENDPOINTS : List (String × String) :=
  [(MODEL_CHAT, "https://api.deepseek.com/v1/chat/completions"),
   (MODEL_REASONER, "https://api.deepseek.com/chat/completions")]

/-- Association-list lookup for `MODEL_ENDPOINTS`; `none` models the
`KeyError` of `MODEL_ENDPOINTS[model]` on an unknown key. -/
def lookupStr : List (String × String) → String → Option String
  | [], _ => none
  | (k, v) :: rest, key => if k = key then some v else lookupStr rest key

/-- Constant `DONE_MARKER = b"data: [DONE]"`. -/
def DONE_MARKER : List Nat := asciiBytes "data: [DONE]"

/-- The data-event lead-in `b"data: "` (named after `b"data: "` in the
source). -/
def DATA_PREFIX_BYTES : List Nat := asciiBytes "data: "

/-- Python `dict.update` with a list of key-value pairs (`output.update({...})`). -/
def objUpdate (fields : List (String × Json)) (updates : List (String × Json)) :
    List (String × Json) :=
  updates.foldl (fun acc kv => objInsert acc kv.1 kv.2) fields

/-- Source lines 170-176: the reasoning-steps extraction for the reasoner
model (`delta.get("reasoning", {}).get("output", "")`, collected into a
one-step list when truthy). -/
def parse_reasoning_steps (model delta : Json) : Except String (List Json) :=
  if jeqStr model MODEL_REASONER then
    match pyGet delta "reasoning" (.obj []) with
    | .error e => .error e
    | .ok reasoning =>
      match pyGet reasoning "output" (.str "") with
      | .error e => .error e
      | .ok reasoning_content =>
        .ok (if pyTruthy reasoning_content then
            [Json.obj [("step", Json.num 1), ("content", reasoning_content)]]
          else [])
  else .ok []

/-- Source lines 180-199: building the output dict.  `message_content`
(with its conditional `reasoning_steps` key) is built exactly as in the
source and, exactly as in the source, never used: the returned dict
rebuilds the message from a fresh literal. -/
def parse_output (response_data model content : Json) (reasoning_steps : List Json)
    (done : Bool) : Except String (Option Json) :=
  let message_content := Json.obj
    ([("role", Json.str "assistant"), ("content", content), ("images", Json.null)] ++
      (if reasoning_steps.isEmpty then []
       else [("reasoning_steps", Json.arr reasoning_steps)]))
  let outputFields :=
    [("model", model),
     ("message", Json.obj
        [("role", Json.str "assistant"), ("content", content), ("images", Json.null)]),
     ("done", Json.bool done)]
  if done then
    match pyGet response_data "usage" (.obj []) with
    | .error e => .error e
    | .ok usage =>
      match pyGet usage "total_tokens" (.num 0) with
      | .error e => .error e
      | .ok eval_count =>
        match pyGet usage "prompt_tokens" (.num 0) with
        | .error e => .error e
        | .ok prompt_eval_count =>
          .ok (some (Json.obj (objUpdate outputFields
            [("eval_count", eval_count), ("prompt_eval_count", prompt_eval_count)])))
  else .ok (some (Json.obj outputFields))

/-- The payload part of `parse_response_line` (source lines 158-199): the
work done on `response_data` after `json.loads` succeeded.  `.ok none`
models `return None`, `.ok (some output)` models returning the output
dict, `.error` models an exception escaping to the `except` clause. -/
def parse_payload (response_data : Json) : Except String (Option Json) :=
  if !response_data.isObj then .ok none
  else
    match pyGet response_data "model" (.str "") with
    | .error e => .error e
    | .ok model =>
      match pyGet response_data "choices" (.arr []) with
      | .error e => .error e
      | .ok choices =>
        if !pyTruthy choices then .ok none
        else
          match pyIndex0 choices with
          | .error e => .error e
          | .ok choice =>
            match pyGet choice "delta" (.obj []) with
            | .error e => .error e
            | .ok delta =>
              match pyGet delta "content" (.str "") with
              | .error e => .error e
              | .ok content =>
                match parse_reasoning_steps model delta with
                | .error e => .error e
                | .ok reasoning_steps =>
                  match pyGet choice "finish_reason" Json.null with
                  | .error e => .error e
                  | .ok finish_reason =>
                    parse_output response_data model content reasoning_steps
                      (jeqStr finish_reason "stop")

/-- The body of `parse_response_line` inside the `try` block, on the raw
byte line: sentinel and lead-in handling, UTF-8 decoding and JSON parsing,
then `parse_payload`.  `.error` models any exception reaching `except`. -/
def parse_response_line_body (line : List Nat) : Except String (Option Json) :=
  if line = DONE_MARKER then .ok none
  else if DATA_PREFIX_BYTES.isPrefixOf line then
    match utf8Decode (List.drop DATA_PREFIX_BYTES.length line) with
    | none => .error "UnicodeDecodeError"
    | some json_str =>
      match jsonParse json_str with
      | none => .error "JSONDecodeError"
      | some response_data => parse_payload response_data
  else .ok none

/-- Function `parse_response_line`: the body above wrapped in
`try ... except Exception: log and return None`. -/
def parse_response_line (line : List Nat) : Option Json :=
  match parse_response_line_body line with
  | .ok v => v
  | .error _ => none

/-- Function `generate_streaming_response`: the upstream connection is modelled by
the list of lines `response.iter_lines()` yields; each line is parsed and
every truthy parse result is yielded in order.  (The source serializes
each chunk with `json.dumps` before yielding; the claims are about the
chunk values, so the output here is the chunk sequence itself.) -/
def generate_streaming_response (lines : List (List Nat)) : List Json :=
  match lines with
  | [] => []
  | line :: rest =>
    match parse_response_line line with
    | some parsed =>
      if pyTruthy parsed then parsed :: generate_streaming_response rest
      else generate_streaming_response rest
    | none => generate_streaming_response rest

/-- One chat turn `{"role": ..., "content": ...}`. -/
structure ChatTurn where
  role : String
  content : String
deriving DecidableEq, Repr

/-- Outcome of `validate_message_sequence`: `accepted` models returning
`None`, `rejected` models returning the error dict, `indexError` models
an uncaught `IndexError` escaping the function. -/
inductive ValidateResult where
  | accepted : ValidateResult
  | rejected (error : String) (code : String) : ValidateResult
  | indexError : ValidateResult
deriving DecidableEq, Repr

/-- The role-checking loop of `validate_message_sequence` (source lines
116-127), carrying `prev_role` and the enumeration index. -/
def check_roles : List ChatTurn → Option String → Nat → ValidateResult
  | [], _, _ => .accepted
  | msg :: rest, prev_role, idx =>
    if msg.role ≠ "user" ∧ msg.role ≠ "assistant" then
      .rejected ("Invalid role \x27" ++ msg.role ++ "\x27 at position " ++ toString idx)
        "invalid_role"
    else if some msg.role = prev_role then
      .rejected ("Consecutive " ++ msg.role ++ " messages at positions " ++
          toString (idx - 1) ++ " and " ++ toString idx)
        "consecutive_messages"
    else check_roles rest (some msg.role) (idx + 1)

/-- Function `validate_message_sequence(messages, model)`.  Python mutates the list
through `messages.pop(0)`; the embedding passes the state explicitly and
returns the final list together with the outcome. -/
def validate_message_sequence (messages : List ChatTurn) (model : String) :
    List ChatTurn × ValidateResult :=
  if model ≠ MODEL_REASONER then (messages, .accepted)
  else
    match messages with
    | [] => (messages, .rejected "Empty message list" "invalid_messages")
    | first :: rest =>
      let messages2 := if first.role ≠ "user" then rest else first :: rest
      match messages2 with
      | [] => (messages2, .indexError)
      | first2 :: _ =>
        if first2.role ≠ "user" then
          (messages2, .rejected "First message must be from user" "invalid_first_message")
        else (messages2, check_roles messages2 none 0)

/-- Outcome of the `/api/chat` handler up to the upstream dispatch:
`badRequest` models a 400 `JSONResponse`, `keyError` an uncaught
`KeyError` from `MODEL_ENDPOINTS[model]`, `uncaught` any other exception
escaping the handler, and `streaming`/`nonStreaming` the dispatch to the
corresponding translator with the outbound request payload. -/
inductive ChatResult where
  | badRequest (error : String) (code : Option String) : ChatResult
  | keyError (key : String) : ChatResult
  | uncaught (msg : String) : ChatResult
  | streaming (api_endpoint : String) (model : String)
      (messages : List ChatTurn) (stream : Bool) : ChatResult
  | nonStreaming (api_endpoint : String) (model : String)
      (messages : List ChatTurn) (stream : Bool) : ChatResult
deriving DecidableEq, Repr

/-- The `/api/chat` handler `chat` (source lines 309-363) on the decoded
request fields: presence and truthiness check on `model` and `messages`,
the unguarded `MODEL_ENDPOINTS[model]` lookup, sequence validation, then
dispatch on the `stream` flag with the outbound payload. -/
def chat (modelField : Option String) (messagesField : Option (List ChatTurn))
    (stream : Bool) : ChatResult :=
  match modelField, messagesField with
  | some model, some messages =>
    if model = "" ∨ messages = [] then
      .badRequest "model and messages are required" none
    else
      match lookupStr MODEL_ENDPOINTS model with
      | none => .keyError model
      | some api_endpoint =>
        match validate_message_sequence messages model with
        | (_, .indexError) => .uncaught "IndexError"
        | (_, .rejected e c) =>
          .badRequest ("Invalid message sequence: " ++ e) (some c)
        | (messages2, .accepted) =>
          if stream then .streaming api_endpoint model messages2 stream
          else .nonStreaming api_endpoint model messages2 stream
  | _, _ => .badRequest "model and messages are required" none

/-- The machine-readable code of a validator outcome (`None` unless the
outcome is a rejection dict). -/
def ValidateResult.code : ValidateResult → Option String
  | .rejected _ c => some c
  | _ => none

/-- Shape of every dict `parse_output` can return: the fixed
model/message/done fields, the message rebuilt from the fresh literal,
and the two usage counts appended exactly when `done` is true. -/
theorem parse_output_shape (rd model content : Json) (rs : List Json) (done : Bool)
    (chunk : Json) (h : parse_output rd model content rs done = .ok (some chunk)) :
    ∃ extra, chunk = Json.obj
      ([("model", model),
        ("message", Json.obj
          [("role", Json.str "assistant"), ("content", content), ("images", Json.null)]),
        ("done", Json.bool done)] ++ extra) ∧
      (done = false → extra = []) ∧
      (done = true → ∃ ec pc, extra = [("eval_count", ec), ("prompt_eval_count", pc)]) := by
  simp only [parse_output] at h
  cases done with
  | false =>
    simp only [Bool.false_eq_true, if_false, Except.ok.injEq, Option.some.injEq] at h
    refine ⟨[], ?_, fun _ => rfl, by simp⟩
    simp [h.symm]
  | true =>
    simp only [if_true] at h
    split at h
    · exact absurd h (by simp)
    · split at h
      · exact absurd h (by simp)
      · split at h
        · exact absurd h (by simp)
        · simp only [Except.ok.injEq, Option.some.injEq] at h
          rename_i x1 usage hu x2 ec hec x3 pc hpc
          refine ⟨[("eval_count", ec), ("prompt_eval_count", pc)], ?_, by simp,
            fun _ => ⟨ec, pc, rfl⟩⟩
          rw [← h]
          rfl

/-- Shape of every dict `parse_payload` can return, for an arbitrary
decoded payload. -/
theorem parse_payload_shape (j chunk : Json) (h : parse_payload j = .ok (some chunk)) :
    ∃ modelv contentv donev extra, chunk = Json.obj
      ([("model", modelv),
        ("message", Json.obj
          [("role", Json.str "assistant"), ("content", contentv), ("images", Json.null)]),
        ("done", Json.bool donev)] ++ extra) ∧
      (donev = false → extra = []) ∧
      (donev = true → ∃ ec pc, extra = [("eval_count", ec), ("prompt_eval_count", pc)]) := by
  simp only [parse_payload] at h
  split at h
  · exact absurd h (by simp)
  · split at h
    · exact absurd h (by simp)
    · split at h
      · exact absurd h (by simp)
      · split at h
        · exact absurd h (by simp)
        · split at h
          · exact absurd h (by simp)
          · split at h
            · exact absurd h (by simp)
            · split at h
              · exact absurd h (by simp)
              · split at h
                · exact absurd h (by simp)
                · split at h
                  · exact absurd h (by simp)
                  · obtain ⟨extra, hc, h1, h2⟩ := parse_output_shape _ _ _ _ _ _ h
                    exact ⟨_, _, _, extra, hc, h1, h2⟩

/-- Evaluation of `parse_payload` on a payload whose extraction steps all
succeed, reduced to the corresponding `parse_output` call. -/
theorem parse_payload_eval
    (fields cf df : List (String × Json)) (cs : List Json)
    (modelv contentv frv : Json) (rs : List Json)
    (hm : pyGet (Json.obj fields) "model" (Json.str "") = .ok modelv)
    (hch : jlookup fields "choices" = some (Json.arr (Json.obj cf :: cs)))
    (hd : pyGet (Json.obj cf) "delta" (Json.obj []) = .ok (Json.obj df))
    (hcont : pyGet (Json.obj df) "content" (Json.str "") = .ok contentv)
    (hrs : parse_reasoning_steps modelv (Json.obj df) = .ok rs)
    (hfr : pyGet (Json.obj cf) "finish_reason" Json.null = .ok frv) :
    parse_payload (Json.obj fields) =
      parse_output (Json.obj fields) modelv contentv rs (jeqStr frv "stop") := by
  have hchoices : pyGet (Json.obj fields) "choices" (Json.arr []) =
      .ok (Json.arr (Json.obj cf :: cs)) := by
    simp [pyGet, hch]
  simp only [parse_payload, Json.isObj, Bool.not_true, if_false, hm, hchoices,
    pyTruthy, List.isEmpty, Bool.not_false, if_true, pyIndex0, hd, hcont, hrs, hfr,
    Bool.false_eq_true]

/-- Evaluation of `parse_output` on a non-terminal chunk (`done = false`). -/
theorem parse_output_done_false (rd model content : Json) (rs : List Json) :
    parse_output rd model content rs false = .ok (some (Json.obj
      [("model", model),
       ("message", Json.obj
          [("role", Json.str "assistant"), ("content", content), ("images", Json.null)]),
       ("done", Json.bool false)])) := rfl

/-- Evaluation of `parse_output` on a terminal chunk (`done = true`) whose usage
extraction succeeds. -/
theorem parse_output_done_true (rd model content : Json) (rs : List Json)
    (uf : List (String × Json)) (ec pc : Json)
    (hu : pyGet rd "usage" (Json.obj []) = .ok (Json.obj uf))
    (ht : pyGet (Json.obj uf) "total_tokens" (Json.num 0) = .ok ec)
    (hp : pyGet (Json.obj uf) "prompt_tokens" (Json.num 0) = .ok pc) :
    parse_output rd model content rs true = .ok (some (Json.obj
      [("model", model),
       ("message", Json.obj
          [("role", Json.str "assistant"), ("content", content), ("images", Json.null)]),
       ("done", Json.bool true),
       ("eval_count", ec), ("prompt_eval_count", pc)])) := by
  simp only [parse_output, if_true, hu, ht, hp]
  rfl

/-- A data line that decodes and parses runs the payload stage. -/
theorem parse_response_line_body_data (line : List Nat) (s : String) (j : Json)
    (hnm : line ≠ DONE_MARKER)
    (hpref : DATA_PREFIX_BYTES.isPrefixOf line = true)
    (hdec : utf8Decode (List.drop DATA_PREFIX_BYTES.length line) = some s)
    (hjson : jsonParse s = some j) :
    parse_response_line_body line = parse_payload j := by
  simp only [parse_response_line_body, if_neg hnm, hpref, if_true, hdec, hjson]

/-- A body that did not raise passes its value through the catch. -/
theorem parse_response_line_of_body (line : List Nat) (v : Option Json)
    (h : parse_response_line_body line = .ok v) :
    parse_response_line line = v := by
  simp [parse_response_line, h]

/-- Every chunk the line parser emits comes from a decoded and parsed
payload on which `parse_payload` succeeded. -/
theorem parse_response_line_some (line : List Nat) (chunk : Json)
    (h : parse_response_line line = some chunk) :
    ∃ s j, utf8Decode (List.drop DATA_PREFIX_BYTES.length line) = some s ∧
      jsonParse s = some j ∧ parse_payload j = .ok (some chunk) := by
  cases hb : parse_response_line_body line with
  | error e =>
    have hn : parse_response_line line = none := by simp [parse_response_line, hb]
    rw [hn] at h
    exact absurd h (by simp)
  | ok v =>
    have hv : v = some chunk := by
      have hl : parse_response_line line = v := by simp [parse_response_line, hb]
      rw [hl] at h
      exact h
    subst hv
    unfold parse_response_line_body at hb
    split at hb
    · exact absurd hb (by simp)
    · split at hb
      · split at hb
        · exact absurd hb (by simp)
        · rename_i s hdec
          split at hb
          · exact absurd hb (by simp)
          · rename_i j hjson
            exact ⟨s, j, hdec, hjson, hb⟩
      · exact absurd hb (by simp)

set_option maxRecDepth 400000 in
/-- C1 counterexample: on the concrete reasoner data line whose delta has
no content and reasoning output "think", the returned chunk's message
content is the empty string, not the recovered reasoning text. -/
theorem c1_reasoning_fallback_cex :
    ((parse_response_line (asciiBytes "data: \x7b\"model\": \"deepseek-reasoner\", \"choices\": [\x7b\"delta\": \x7b\"reasoning\": \x7b\"output\": \"think\"\x7d\x7d\x7d]\x7d")).bind
        (fun chunk => chunk.getField "message")).bind
      (fun m => m.getField "content") = some (Json.str "") ∧
    ((parse_response_line (asciiBytes "data: \x7b\"model\": \"deepseek-reasoner\", \"choices\": [\x7b\"delta\": \x7b\"reasoning\": \x7b\"output\": \"think\"\x7d\x7d\x7d]\x7d")).bind
        (fun chunk => chunk.getField "message")).bind
      (fun m => m.getField "content") ≠ some (Json.str "think") := by
  refine ⟨rfl, fun h => ?_⟩
  have h0 : (some (Json.str "") : Option Json) = some (Json.str "think") := h
  injection h0 with h1
  injection h1 with h2
  exact absurd h2 (by decide)

/-- C1 (amended): for a reasoner-model data line whose delta content is
absent or empty while delta.reasoning.output holds a non-empty text, the
parser collects that text into a reasoning-steps list attached to a local
message value it never uses; the chunk it returns carries the ordinary
(empty) content as its message content — never the recovered reasoning
text — and no reasoning_steps key. -/
theorem c1_reasoning_fallback
    (line : List Nat) (s : String) (fields cf df rf : List (String × Json))
    (cs : List Json) (r : String) (chunk : Json)
    (hnm : line ≠ DONE_MARKER)
    (hpref : DATA_PREFIX_BYTES.isPrefixOf line = true)
    (hdec : utf8Decode (List.drop DATA_PREFIX_BYTES.length line) = some s)
    (hjson : jsonParse s = some (Json.obj fields))
    (hm : jlookup fields "model" = some (Json.str MODEL_REASONER))
    (hch : jlookup fields "choices" = some (Json.arr (Json.obj cf :: cs)))
    (hd : pyGet (Json.obj cf) "delta" (Json.obj []) = .ok (Json.obj df))
    (hcont : jlookup df "content" = none ∨ jlookup df "content" = some (Json.str ""))
    (hreas : jlookup df "reasoning" = some (Json.obj rf))
    (hout : jlookup rf "output" = some (Json.str r))
    (hr : r ≠ "")
    (hres : parse_response_line line = some chunk) :
    ((chunk.getField "message").bind (fun m => m.getField "content")) =
      some (Json.str "") ∧
    ((chunk.getField "message").bind (fun m => m.getField "content")) ≠
      some (Json.str r) ∧
    ((chunk.getField "message").bind (fun m => m.getField "reasoning_steps")) = none := by
  have hb : parse_response_line_body line = parse_payload (Json.obj fields) :=
    parse_response_line_body_data line s _ hnm hpref hdec hjson
  have hpp : parse_payload (Json.obj fields) = .ok (some chunk) := by
    cases hp : parse_payload (Json.obj fields) with
    | error e =>
      have hx : parse_response_line line = none := by
        simp [parse_response_line, hb.trans hp]
      rw [hx] at hres
      exact absurd hres (by simp)
    | ok v =>
      have hx : parse_response_line line = v := by simp [parse_response_line, hb.trans hp]
      rw [hx] at hres
      rw [hres]
  have hmG : pyGet (Json.obj fields) "model" (Json.str "") =
      .ok (Json.str MODEL_REASONER) := by
    simp [pyGet, hm]
  have hcontG : pyGet (Json.obj df) "content" (Json.str "") = .ok (Json.str "") := by
    rcases hcont with h | h <;> simp [pyGet, h]
  have hrsG : parse_reasoning_steps (Json.str MODEL_REASONER) (Json.obj df) =
      .ok [Json.obj [("step", Json.num 1), ("content", Json.str r)]] := by
    have hreasG : pyGet (Json.obj df) "reasoning" (Json.obj []) = .ok (Json.obj rf) := by
      simp [pyGet, hreas]
    have houtG : pyGet (Json.obj rf) "output" (Json.str "") = .ok (Json.str r) := by
      simp [pyGet, hout]
    have htr : pyTruthy (Json.str r) = true := by
      simp [pyTruthy, bne_iff_ne, hr]
    simp [parse_reasoning_steps, jeqStr, hreasG, houtG, htr]
  have hfrE : ∃ frv, pyGet (Json.obj cf) "finish_reason" Json.null = .ok frv := by
    cases hl : jlookup cf "finish_reason" with
    | none => exact ⟨Json.null, by simp [pyGet, hl]⟩
    | some v => exact ⟨v, by simp [pyGet, hl]⟩
  obtain ⟨frv, hfrG⟩ := hfrE
  have heval := parse_payload_eval fields cf df cs (Json.str MODEL_REASONER)
    (Json.str "") frv _ hmG hch hd hcontG hrsG hfrG
  rw [heval] at hpp
  obtain ⟨extra, hc, h1, h2⟩ := parse_output_shape _ _ _ _ _ _ hpp
  have hcontent : ((chunk.getField "message").bind (fun m => m.getField "content")) =
      some (Json.str "") := by
    rw [hc]; rfl
  refine ⟨hcontent, ?_, by rw [hc]; rfl⟩
  intro heq
  rw [hcontent] at heq
  have h3 := Option.some.inj heq
  rw [Json.str.injEq] at h3
  exact hr h3.symm

set_option maxRecDepth 400000 in
/-- C1 witness: the amended theorem applied to the concrete reasoner line
with reasoning output "think" and no delta content. -/
theorem c1_reasoning_fallback_witness :
    ((Json.getField (Json.obj
        [("model", Json.str "deepseek-reasoner"),
         ("message", Json.obj [("role", Json.str "assistant"),
            ("content", Json.str ""), ("images", Json.null)]),
         ("done", Json.bool false)]) "message").bind
      (fun m => m.getField "content")) = some (Json.str "") ∧
    ((Json.getField (Json.obj
        [("model", Json.str "deepseek-reasoner"),
         ("message", Json.obj [("role", Json.str "assistant"),
            ("content", Json.str ""), ("images", Json.null)]),
         ("done", Json.bool false)]) "message").bind
      (fun m => m.getField "content")) ≠ some (Json.str "think") ∧
    ((Json.getField (Json.obj
        [("model", Json.str "deepseek-reasoner"),
         ("message", Json.obj [("role", Json.str "assistant"),
            ("content", Json.str ""), ("images", Json.null)]),
         ("done", Json.bool false)]) "message").bind
      (fun m => m.getField "reasoning_steps")) = none :=
  c1_reasoning_fallback
    (asciiBytes "data: \x7b\"model\": \"deepseek-reasoner\", \"choices\": [\x7b\"delta\": \x7b\"reasoning\": \x7b\"output\": \"think\"\x7d\x7d\x7d]\x7d")
    "\x7b\"model\": \"deepseek-reasoner\", \"choices\": [\x7b\"delta\": \x7b\"reasoning\": \x7b\"output\": \"think\"\x7d\x7d\x7d]\x7d"
    [("model", Json.str "deepseek-reasoner"),
     ("choices", Json.arr [Json.obj [("delta", Json.obj
        [("reasoning", Json.obj [("output", Json.str "think")])])]])]
    [("delta", Json.obj [("reasoning", Json.obj [("output", Json.str "think")])])]
    [("reasoning", Json.obj [("output", Json.str "think")])]
    [("output", Json.str "think")]
    [] "think"
    (Json.obj
      [("model", Json.str "deepseek-reasoner"),
       ("message", Json.obj [("role", Json.str "assistant"),
          ("content", Json.str ""), ("images", Json.null)]),
       ("done", Json.bool false)])
    (by decide) rfl rfl rfl rfl rfl rfl (Or.inl rfl) rfl rfl (by decide) rfl

set_option maxRecDepth 400000 in
/-- C2 counterexample: feeding the streaming translator a terminal line
(finish_reason "stop") followed by an ordinary data line yields a stream
whose first chunk has done=true and which still contains a second chunk,
so done is not monotonic and the stream does not end at done=true. -/
theorem c2_done_monotonic_cex :
    ((generate_streaming_response
        [asciiBytes "data: \x7b\"choices\": [\x7b\"finish_reason\": \"stop\"\x7d]\x7d",
         asciiBytes "data: \x7b\"choices\": [\x7b\x7d]\x7d"]).head?.bind
      (fun c => c.getField "done")) = some (Json.bool true) ∧
    (generate_streaming_response
        [asciiBytes "data: \x7b\"choices\": [\x7b\"finish_reason\": \"stop\"\x7d]\x7d",
         asciiBytes "data: \x7b\"choices\": [\x7b\x7d]\x7d"]).length = 2 :=
  ⟨rfl, rfl⟩

/-- C2 (amended): the streaming translator never terminates early on a
done=true chunk: it emits, in order, one chunk per truthy parse result of
every line of the whole upstream sequence, so its output over a
concatenation of line sequences is the concatenation of the outputs, and
a chunk with done=true may be followed by further chunks. -/
theorem c2_done_monotonic (ls1 ls2 : List (List Nat)) :
    generate_streaming_response (ls1 ++ ls2) =
      generate_streaming_response ls1 ++ generate_streaming_response ls2 := by
  induction ls1 with
  | nil => rfl
  | cons l rest ih =>
    simp only [List.cons_append, generate_streaming_response]
    cases parse_response_line l with
    | none => exact ih
    | some p =>
      cases htr : pyTruthy p with
      | false => simp [htr, ih]
      | true => simp [htr, ih]

/-- C3 counterexample: on the single-turn input whose first role is
"assistant", the validator for the reasoner model does not return a
rejection coded invalid_first_message — popping the leading turn empties
the list and the following index access raises an uncaught IndexError. -/
theorem c3_invalid_first_message_cex :
    (validate_message_sequence [⟨"assistant", "hi"⟩] MODEL_REASONER).2 =
      ValidateResult.indexError ∧
    ValidateResult.code
        (validate_message_sequence [⟨"assistant", "hi"⟩] MODEL_REASONER).2 ≠
      some "invalid_first_message" := by
  decide

/-- The role-checking loop can only reject with the codes invalid_role or
consecutive_messages; it never produces the code invalid_first_message. -/
theorem check_roles_code (msgs : List ChatTurn) (prev : Option String) (idx : Nat) :
    ValidateResult.code (check_roles msgs prev idx) ≠ some "invalid_first_message" := by
  induction msgs generalizing prev idx with
  | nil => intro h; cases h
  | cons m rest ih =>
    simp only [check_roles]
    split
    · exact fun h => absurd (Option.some.inj h) (by decide)
    · split
      · exact fun h => absurd (Option.some.inj h) (by decide)
      · exact ih (some m.role) (idx + 1)

/-- C3 (amended): for the reasoner model the validator first discards one
leading non-user turn; a rejection coded invalid_first_message is returned
exactly when the next turn's role is also not "user" (when that next turn
is from the user, the outcome — acceptance or a role/alternation rejection
— never carries the code invalid_first_message), while the single-turn
input [assistant] leaves the list empty and fails with an uncaught
IndexError instead of returning a rejection. -/
theorem c3_invalid_first_message (m1 m2 : ChatTurn) (rest : List ChatTurn)
    (h1 : m1.role ≠ "user") :
    validate_message_sequence [m1] MODEL_REASONER = ([], ValidateResult.indexError) ∧
    (m2.role ≠ "user" →
      validate_message_sequence (m1 :: m2 :: rest) MODEL_REASONER =
        (m2 :: rest, ValidateResult.rejected "First message must be from user"
          "invalid_first_message")) ∧
    (m2.role = "user" →
      ValidateResult.code
          (validate_message_sequence (m1 :: m2 :: rest) MODEL_REASONER).2 ≠
        some "invalid_first_message") := by
  refine ⟨?_, ?_, ?_⟩
  · simp [validate_message_sequence, h1]
  · intro h2
    simp [validate_message_sequence, h1, h2]
  · intro h2
    have hv : (validate_message_sequence (m1 :: m2 :: rest) MODEL_REASONER).2 =
        check_roles (m2 :: rest) none 0 := by
      simp [validate_message_sequence, h1, h2]
    rw [hv]
    exact check_roles_code (m2 :: rest) none 0

/-- C3 witness: the amended theorem applied to concrete assistant-first
inputs of lengths one and two, and to the discard case whose next turn is
from the user. -/
theorem c3_invalid_first_message_witness :
    validate_message_sequence [⟨"assistant", "a"⟩] MODEL_REASONER =
      ([], ValidateResult.indexError) ∧
    validate_message_sequence [⟨"assistant", "a"⟩, ⟨"assistant", "b"⟩] MODEL_REASONER =
      ([⟨"assistant", "b"⟩], ValidateResult.rejected "First message must be from user"
        "invalid_first_message") ∧
    ValidateResult.code
        (validate_message_sequence [⟨"assistant", "a"⟩, ⟨"user", "b"⟩]
          MODEL_REASONER).2 ≠
      some "invalid_first_message" :=
  ⟨(c3_invalid_first_message ⟨"assistant", "a"⟩ ⟨"assistant", "b"⟩ [] (by decide)).1,
   (c3_invalid_first_message ⟨"assistant", "a"⟩ ⟨"assistant", "b"⟩ [] (by decide)).2.1
     (by decide),
   (c3_invalid_first_message ⟨"assistant", "a"⟩ ⟨"user", "b"⟩ [] (by decide)).2.2 rfl⟩

/-- C4 counterexample: on the reasoner model with input
[assistant, user] the validator returns having removed the leading turn,
so the input list is not left unchanged. -/
theorem c4_no_mutation_cex :
    (validate_message_sequence [⟨"assistant", "a"⟩, ⟨"user", "b"⟩] MODEL_REASONER).1 ≠
      [⟨"assistant", "a"⟩, ⟨"user", "b"⟩] := by
  decide

/-- C4 (amended): the validator leaves its input list unchanged except in
one case: for the reasoner model on a non-empty list whose first turn's
role is not "user", exactly the leading turn is removed (the pop of the
discard-first policy) and the rest survives unchanged. -/
theorem c4_no_mutation (messages : List ChatTurn) (model : String) :
    ((model ≠ MODEL_REASONER ∨ messages = [] ∨
        (∃ first rest, messages = first :: rest ∧ first.role = "user")) →
      (validate_message_sequence messages model).1 = messages) ∧
    (∀ first rest, messages = first :: rest → model = MODEL_REASONER →
      first.role ≠ "user" → (validate_message_sequence messages model).1 = rest) := by
  constructor
  · rintro (h | h | ⟨first, rest, rfl, hrole⟩)
    · simp [validate_message_sequence, h]
    · subst h
      by_cases hm : model = MODEL_REASONER <;>
        simp [validate_message_sequence, hm]
    · by_cases hm : model = MODEL_REASONER
      · subst hm
        simp only [validate_message_sequence, ne_eq, not_true_eq_false, if_false, hrole,
          not_false_eq_true]
      · simp [validate_message_sequence, hm]
  · rintro first rest rfl hm hrole
    subst hm
    simp only [validate_message_sequence, ne_eq, not_true_eq_false, if_false, hrole,
      if_true, not_false_eq_true]
    cases rest with
    | nil => rfl
    | cons a b =>
      by_cases ha : a.role = "user" <;> simp [ha]

/-- C4 witness: the amended theorem applied to a user-first list (left
unchanged) and to an assistant-first list (leading turn removed). -/
theorem c4_no_mutation_witness :
    (validate_message_sequence [⟨"user", "a"⟩] MODEL_REASONER).1 = [⟨"user", "a"⟩] ∧
    (validate_message_sequence [⟨"assistant", "a"⟩, ⟨"user", "b"⟩] MODEL_REASONER).1 =
      [⟨"user", "b"⟩] :=
  ⟨(c4_no_mutation [⟨"user", "a"⟩] MODEL_REASONER).1
      (Or.inr (Or.inr ⟨⟨"user", "a"⟩, [], rfl, rfl⟩)),
   (c4_no_mutation [⟨"assistant", "a"⟩, ⟨"user", "b"⟩] MODEL_REASONER).2
      ⟨"assistant", "a"⟩ [⟨"user", "b"⟩] rfl rfl (by decide)⟩

/-- C5: for every well-formed data line with non-empty choices whose first
choice carries finish_reason "stop", the parser returns exactly one chunk
(the single some value) with done=true; when the usage object carries
total_tokens 42 and prompt_tokens 10 the chunk carries eval_count 42 and
prompt_eval_count 10, and when the usage object or its fields are absent
both counts default to 0. -/
theorem c5_terminal_usage
    (line : List Nat) (s : String) (fields cf df uf : List (String × Json))
    (cs : List Json) (modelv contentv : Json) (rs : List Json)
    (hnm : line ≠ DONE_MARKER)
    (hpref : DATA_PREFIX_BYTES.isPrefixOf line = true)
    (hdec : utf8Decode (List.drop DATA_PREFIX_BYTES.length line) = some s)
    (hjson : jsonParse s = some (Json.obj fields))
    (hm : pyGet (Json.obj fields) "model" (Json.str "") = .ok modelv)
    (hch : jlookup fields "choices" = some (Json.arr (Json.obj cf :: cs)))
    (hd : pyGet (Json.obj cf) "delta" (Json.obj []) = .ok (Json.obj df))
    (hcont : pyGet (Json.obj df) "content" (Json.str "") = .ok contentv)
    (hrs : parse_reasoning_steps modelv (Json.obj df) = .ok rs)
    (hfr : jlookup cf "finish_reason" = some (Json.str "stop"))
    (hus : pyGet (Json.obj fields) "usage" (Json.obj []) = .ok (Json.obj uf)) :
    (jlookup uf "total_tokens" = some (Json.num 42) →
      jlookup uf "prompt_tokens" = some (Json.num 10) →
      ∃ chunk, parse_response_line line = some chunk ∧
        chunk.getField "done" = some (Json.bool true) ∧
        chunk.getField "eval_count" = some (Json.num 42) ∧
        chunk.getField "prompt_eval_count" = some (Json.num 10)) ∧
    (jlookup uf "total_tokens" = none → jlookup uf "prompt_tokens" = none →
      ∃ chunk, parse_response_line line = some chunk ∧
        chunk.getField "done" = some (Json.bool true) ∧
        chunk.getField "eval_count" = some (Json.num 0) ∧
        chunk.getField "prompt_eval_count" = some (Json.num 0)) := by
  have hfr2 : pyGet (Json.obj cf) "finish_reason" Json.null = .ok (Json.str "stop") := by
    simp [pyGet, hfr]
  have heval := parse_payload_eval fields cf df cs modelv contentv (Json.str "stop") rs
    hm hch hd hcont hrs hfr2
  have hstop : jeqStr (Json.str "stop") "stop" = true := rfl
  rw [hstop] at heval
  constructor
  · intro ht hp
    have ht2 : pyGet (Json.obj uf) "total_tokens" (Json.num 0) = .ok (Json.num 42) := by
      simp [pyGet, ht]
    have hp2 : pyGet (Json.obj uf) "prompt_tokens" (Json.num 0) = .ok (Json.num 10) := by
      simp [pyGet, hp]
    have hout := parse_output_done_true (Json.obj fields) modelv contentv rs uf
      (Json.num 42) (Json.num 10) hus ht2 hp2
    have hline := parse_response_line_of_body line _
      ((parse_response_line_body_data line s _ hnm hpref hdec hjson).trans
        (heval.trans hout))
    exact ⟨_, hline, rfl, rfl, rfl⟩
  · intro ht hp
    have ht2 : pyGet (Json.obj uf) "total_tokens" (Json.num 0) = .ok (Json.num 0) := by
      simp [pyGet, ht]
    have hp2 : pyGet (Json.obj uf) "prompt_tokens" (Json.num 0) = .ok (Json.num 0) := by
      simp [pyGet, hp]
    have hout := parse_output_done_true (Json.obj fields) modelv contentv rs uf
      (Json.num 0) (Json.num 0) hus ht2 hp2
    have hline := parse_response_line_of_body line _
      ((parse_response_line_body_data line s _ hnm hpref hdec hjson).trans
        (heval.trans hout))
    exact ⟨_, hline, rfl, rfl, rfl⟩

set_option maxRecDepth 400000 in
/-- C5 witness: the theorem applied to a concrete terminal line with
usage 42/10, and to one with no usage object at all. -/
theorem c5_terminal_usage_witness :
    (∃ chunk, parse_response_line (asciiBytes
        "data: \x7b\"choices\": [\x7b\"finish_reason\": \"stop\"\x7d], \"usage\": \x7b\"total_tokens\": 42, \"prompt_tokens\": 10\x7d\x7d") =
        some chunk ∧
      chunk.getField "done" = some (Json.bool true) ∧
      chunk.getField "eval_count" = some (Json.num 42) ∧
      chunk.getField "prompt_eval_count" = some (Json.num 10)) ∧
    (∃ chunk, parse_response_line (asciiBytes
        "data: \x7b\"choices\": [\x7b\"finish_reason\": \"stop\"\x7d]\x7d") = some chunk ∧
      chunk.getField "done" = some (Json.bool true) ∧
      chunk.getField "eval_count" = some (Json.num 0) ∧
      chunk.getField "prompt_eval_count" = some (Json.num 0)) :=
  ⟨(c5_terminal_usage
      (asciiBytes "data: \x7b\"choices\": [\x7b\"finish_reason\": \"stop\"\x7d], \"usage\": \x7b\"total_tokens\": 42, \"prompt_tokens\": 10\x7d\x7d")
      "\x7b\"choices\": [\x7b\"finish_reason\": \"stop\"\x7d], \"usage\": \x7b\"total_tokens\": 42, \"prompt_tokens\": 10\x7d\x7d"
      [("choices", Json.arr [Json.obj [("finish_reason", Json.str "stop")]]),
       ("usage", Json.obj [("total_tokens", Json.num 42), ("prompt_tokens", Json.num 10)])]
      [("finish_reason", Json.str "stop")] []
      [("total_tokens", Json.num 42), ("prompt_tokens", Json.num 10)]
      [] (Json.str "") (Json.str "") []
      (by decide) rfl rfl rfl rfl rfl rfl rfl rfl rfl rfl).1 rfl rfl,
   (c5_terminal_usage
      (asciiBytes "data: \x7b\"choices\": [\x7b\"finish_reason\": \"stop\"\x7d]\x7d")
      "\x7b\"choices\": [\x7b\"finish_reason\": \"stop\"\x7d]\x7d"
      [("choices", Json.arr [Json.obj [("finish_reason", Json.str "stop")]])]
      [("finish_reason", Json.str "stop")] [] []
      [] (Json.str "") (Json.str "") []
      (by decide) rfl rfl rfl rfl rfl rfl rfl rfl rfl rfl).2 rfl rfl⟩

/-- C6: for every well-formed data line with non-empty choices whose first
choice's finish_reason is not "stop", the parser returns exactly one chunk
with done=false and neither an eval_count nor a prompt_eval_count field;
and in general these two fields are absent from every emitted chunk whose
done field is false. -/
theorem c6_nonterminal_no_counts
    (line : List Nat) (s : String) (fields cf df : List (String × Json))
    (cs : List Json) (modelv contentv frv : Json) (rs : List Json)
    (hnm : line ≠ DONE_MARKER)
    (hpref : DATA_PREFIX_BYTES.isPrefixOf line = true)
    (hdec : utf8Decode (List.drop DATA_PREFIX_BYTES.length line) = some s)
    (hjson : jsonParse s = some (Json.obj fields))
    (hm : pyGet (Json.obj fields) "model" (Json.str "") = .ok modelv)
    (hch : jlookup fields "choices" = some (Json.arr (Json.obj cf :: cs)))
    (hd : pyGet (Json.obj cf) "delta" (Json.obj []) = .ok (Json.obj df))
    (hcont : pyGet (Json.obj df) "content" (Json.str "") = .ok contentv)
    (hrs : parse_reasoning_steps modelv (Json.obj df) = .ok rs)
    (hfr : pyGet (Json.obj cf) "finish_reason" Json.null = .ok frv)
    (hns : jeqStr frv "stop" = false) :
    (∃ chunk, parse_response_line line = some chunk ∧
      chunk.getField "done" = some (Json.bool false) ∧
      chunk.getField "eval_count" = none ∧
      chunk.getField "prompt_eval_count" = none) ∧
    (∀ (line2 : List Nat) (chunk2 : Json), parse_response_line line2 = some chunk2 →
      chunk2.getField "done" = some (Json.bool false) →
      chunk2.getField "eval_count" = none ∧
      chunk2.getField "prompt_eval_count" = none) := by
  constructor
  · have heval := parse_payload_eval fields cf df cs modelv contentv frv rs
      hm hch hd hcont hrs hfr
    rw [hns, parse_output_done_false] at heval
    have hline := parse_response_line_of_body line _
      ((parse_response_line_body_data line s _ hnm hpref hdec hjson).trans heval)
    exact ⟨_, hline, rfl, rfl, rfl⟩
  · intro line2 chunk2 h2 hdone
    obtain ⟨s2, j2, hdec2, hjson2, hp2⟩ := parse_response_line_some line2 chunk2 h2
    obtain ⟨m2, c2, donev, extra, hc, hfalse, htrue⟩ := parse_payload_shape j2 chunk2 hp2
    have h0 : chunk2.getField "done" = some (Json.bool donev) := by
      rw [hc]; rfl
    have hd2 : donev = false := by
      have hx := h0.symm.trans hdone
      simpa using hx
    have hextra : extra = [] := hfalse hd2
    subst hextra
    constructor
    · rw [hc]; rfl
    · rw [hc]; rfl

set_option maxRecDepth 400000 in
/-- C6 witness: the theorem applied to a concrete non-terminal content
line. -/
theorem c6_nonterminal_no_counts_witness :
    ∃ chunk, parse_response_line (asciiBytes
        "data: \x7b\"choices\": [\x7b\"delta\": \x7b\"content\": \"hi\"\x7d\x7d]\x7d") =
      some chunk ∧
      chunk.getField "done" = some (Json.bool false) ∧
      chunk.getField "eval_count" = none ∧
      chunk.getField "prompt_eval_count" = none :=
  (c6_nonterminal_no_counts
    (asciiBytes "data: \x7b\"choices\": [\x7b\"delta\": \x7b\"content\": \"hi\"\x7d\x7d]\x7d")
    "\x7b\"choices\": [\x7b\"delta\": \x7b\"content\": \"hi\"\x7d\x7d]\x7d"
    [("choices", Json.arr [Json.obj [("delta", Json.obj [("content", Json.str "hi")])]])]
    [("delta", Json.obj [("content", Json.str "hi")])]
    [("content", Json.str "hi")]
    [] (Json.str "") (Json.str "hi") Json.null []
    (by decide) rfl rfl rfl rfl rfl rfl rfl rfl rfl rfl).1

/-- C7: the parser returns the empty (skip) result — not an error — for
the exact sentinel line "data: [DONE]", for any line that does not start
with the "data: " lead-in, and for any data line whose decoded JSON is
not an object or whose choices list is absent or empty. -/
theorem c7_skip_lines (line : List Nat)
    (h : line = DONE_MARKER ∨ DATA_PREFIX_BYTES.isPrefixOf line = false ∨
      ∃ s j, utf8Decode (List.drop DATA_PREFIX_BYTES.length line) = some s ∧
        jsonParse s = some j ∧
        (j.isObj = false ∨ j.getField "choices" = some (Json.arr []) ∨
          (∃ fs, j = Json.obj fs ∧ jlookup fs "choices" = none))) :
    parse_response_line line = none := by
  rcases h with h | h | ⟨s, j, hdec, hjson, hbad⟩
  · subst h
    rfl
  · by_cases hdm : line = DONE_MARKER <;>
      simp [parse_response_line, parse_response_line_body, hdm, h]
  · by_cases hdm : line = DONE_MARKER
    · simp [parse_response_line, parse_response_line_body, hdm]
    · by_cases hp : DATA_PREFIX_BYTES.isPrefixOf line = true
      · have hbody := parse_response_line_body_data line s j hdm hp hdec hjson
        have hnone : parse_payload j = .ok none := by
          rcases hbad with hb | hb | ⟨fs, rfl, hb⟩
          · simp [parse_payload, hb]
          · cases j with
            | obj fs =>
              have hb2 : jlookup fs "choices" = some (Json.arr []) := hb
              cases hml : jlookup fs "model" <;>
                simp [parse_payload, Json.isObj, pyGet, hml, hb2, pyTruthy]
            | null => simp [Json.getField] at hb
            | bool b => simp [Json.getField] at hb
            | num n => simp [Json.getField] at hb
            | str t => simp [Json.getField] at hb
            | arr xs => simp [Json.getField] at hb
          · cases hml : jlookup fs "model" <;>
              simp [parse_payload, Json.isObj, pyGet, hml, hb, pyTruthy]
        exact parse_response_line_of_body line none (hbody.trans hnone)
      · simp [parse_response_line, parse_response_line_body, hdm, hp]

set_option maxRecDepth 400000 in
/-- C7 witness: the theorem applied to the sentinel itself, to a
non-data keep-alive line, and to a data line with an empty choices
list. -/
theorem c7_skip_lines_witness :
    parse_response_line DONE_MARKER = none ∧
    parse_response_line (asciiBytes "ping") = none ∧
    parse_response_line (asciiBytes "data: \x7b\"choices\": []\x7d") = none :=
  ⟨c7_skip_lines DONE_MARKER (Or.inl rfl),
   c7_skip_lines (asciiBytes "ping") (Or.inr (Or.inl rfl)),
   c7_skip_lines (asciiBytes "data: \x7b\"choices\": []\x7d")
     (Or.inr (Or.inr ⟨"\x7b\"choices\": []\x7d", Json.obj [("choices", Json.arr [])],
       rfl, rfl, Or.inr (Or.inl rfl)⟩))⟩

/-- C8: the parser is total — the catch-all turns every exception of the
body into the skip result, so a body error never escapes; in particular a
data line whose bytes are not valid UTF-8, or whose payload is not valid
JSON, yields the skip result rather than an uncaught exception. -/
theorem c8_no_uncaught (line : List Nat) :
    (∀ e, parse_response_line_body line = .error e → parse_response_line line = none) ∧
    (line ≠ DONE_MARKER → DATA_PREFIX_BYTES.isPrefixOf line = true →
      utf8Decode (List.drop DATA_PREFIX_BYTES.length line) = none →
      parse_response_line line = none) ∧
    (∀ s, line ≠ DONE_MARKER → DATA_PREFIX_BYTES.isPrefixOf line = true →
      utf8Decode (List.drop DATA_PREFIX_BYTES.length line) = some s →
      jsonParse s = none → parse_response_line line = none) := by
  refine ⟨?_, ?_, ?_⟩
  · intro e he
    simp [parse_response_line, he]
  · intro hdm hp hdec
    simp [parse_response_line, parse_response_line_body, hdm, hp, hdec]
  · intro s hdm hp hdec hjson
    simp [parse_response_line, parse_response_line_body, hdm, hp, hdec, hjson]

set_option maxRecDepth 400000 in
/-- C8 witness: the theorem applied to a data line carrying the invalid
byte 0xFF and to a data line carrying malformed JSON. -/
theorem c8_no_uncaught_witness :
    parse_response_line (DATA_PREFIX_BYTES ++ [0xFF]) = none ∧
    parse_response_line (asciiBytes "data: nope") = none :=
  ⟨(c8_no_uncaught (DATA_PREFIX_BYTES ++ [0xFF])).2.1 (by decide) rfl rfl,
   (c8_no_uncaught (asciiBytes "data: nope")).2.2 "nope" (by decide) rfl rfl rfl⟩

/-- C9: documents the defect — on a POST /api/chat request whose model
field is present and truthy but not a supported model name, the handler
reaches the unguarded MODEL_ENDPOINTS[model] lookup and fails with an
uncaught KeyError instead of returning the HTTP 400 response the claim
(and the repository's own test_invalid_model) requires. -/
theorem c9_unknown_model :
    chat (some "invalid-model") (some [⟨"user", "Hello"⟩]) false =
      ChatResult.keyError "invalid-model" ∧
    lookupStr MODEL_ENDPOINTS "invalid-model" = none := by
  constructor <;> rfl

/-- C10: every chunk the line parser emits has a message object built from
the fresh literal of source line 191: exactly the keys role, content and
images, with role "assistant" and images null — never a reasoning_steps
key, even for reasoner lines with non-empty delta.reasoning.output, since
the dict that receives reasoning_steps is discarded. -/
theorem c10_message_shape (line : List Nat) (chunk : Json)
    (h : parse_response_line line = some chunk) :
    (∃ contentv, chunk.getField "message" = some (Json.obj
      [("role", Json.str "assistant"), ("content", contentv), ("images", Json.null)])) ∧
    (∀ m, chunk.getField "message" = some m → m.getField "reasoning_steps" = none) := by
  obtain ⟨s, j, hdec, hjson, hp⟩ := parse_response_line_some line chunk h
  obtain ⟨modelv, contentv, donev, extra, hc, h1, h2⟩ := parse_payload_shape j chunk hp
  have h0 : chunk.getField "message" = some (Json.obj
      [("role", Json.str "assistant"), ("content", contentv), ("images", Json.null)]) := by
    rw [hc]; rfl
  refine ⟨⟨contentv, h0⟩, ?_⟩
  intro m hm
  rw [h0] at hm
  cases hm
  rfl

set_option maxRecDepth 400000 in
/-- C10 witness: the theorem applied to a concrete reasoner line whose
delta carries a non-empty reasoning output next to an empty content. -/
theorem c10_message_shape_witness :
    (∃ contentv, Json.getField (Json.obj
        [("model", Json.str "deepseek-reasoner"),
         ("message", Json.obj [("role", Json.str "assistant"),
            ("content", Json.str ""), ("images", Json.null)]),
         ("done", Json.bool false)]) "message" = some (Json.obj
        [("role", Json.str "assistant"), ("content", contentv), ("images", Json.null)])) ∧
    (∀ m, Json.getField (Json.obj
        [("model", Json.str "deepseek-reasoner"),
         ("message", Json.obj [("role", Json.str "assistant"),
            ("content", Json.str ""), ("images", Json.null)]),
         ("done", Json.bool false)]) "message" = some m →
      m.getField "reasoning_steps" = none) :=
  c10_message_shape
    (asciiBytes "data: \x7b\"model\": \"deepseek-reasoner\", \"choices\": [\x7b\"delta\": \x7b\"reasoning\": \x7b\"output\": \"why\"\x7d, \"content\": \"\"\x7d\x7d]\x7d")
    (Json.obj
      [("model", Json.str "deepseek-reasoner"),
       ("message", Json.obj [("role", Json.str "assistant"),
          ("content", Json.str ""), ("images", Json.null)]),
       ("done", Json.bool false)])
    rfl
